import Mathlib

/-!
A shallow embedding of the plugin subsystem of `yanghua/lance`
(`src/rust/lance/src/plugin.rs` and the example plugin
`src/rust/lance/src/plugin/test_plugin.rs`).

The Rust code manages dynamically loaded plugin libraries.  We model:

* the host-side data (`PluginMetadata`, `PluginInterface`, `PluginError`,
  the registry `HashMap<String, (Box<dyn PluginInstance>, Library)>`);
* a foreign library on disk (`LibFile`) as the environment the code runs
  against: which symbols it exports, the descriptor its entry point
  returns, and the behaviour of the plugin instance its `create` function
  produces;
* each manager operation (`load_plugin`, `unload_plugin`,
  `execute_plugin`, `get_metadata`, the `Drop` impl) as a pure function
  returning its result, the updated registry, and a trace of the
  observable foreign-function events (library open/close, symbol lookups,
  calls to `create`/`init`/`metadata`/`destroy`, and host-side `Box`
  drops), so that lifetime claims ("the destructor is invoked", "the
  handle is released only afterwards") become statements about traces.

Machine integers: `api_version` is `u32`; all values involved are tiny
(0, 1, 2 …) so we use `Nat` directly — no arithmetic in the source can
overflow it.
-/

namespace Lance

/-- `const CURRENT_API_VERSION: u32 = 1;` (plugin.rs line 10). -/
def CURRENT_API_VERSION : Nat := 1

/-- Minimal model of `serde_json::Value`; the manager itself only ever
passes `Value::Null` to `init` (plugin.rs line 89). -/
inductive JsonValue where
  | null
  | bool (b : Bool)
  | num (n : Int)
  | str (s : String)
  | arr (xs : List JsonValue)
  | obj (fields : List (String × JsonValue))

/-- `struct PluginMetadata { name, version, description }` (plugin.rs 12-17). -/
structure PluginMetadata where
  name : String
  version : String
  description : String
deriving DecidableEq, Repr

/-- Behaviour of a `dyn PluginInstance` object (the trait at plugin.rs
19-23): its `init`, `execute` and `metadata` methods as pure functions.
The host never inspects the object beyond these three capabilities. -/
structure PluginBehavior where
  init : JsonValue → Except String Unit
  execute : String → String
  metadata : PluginMetadata

/-- `#[repr(C)] struct PluginInterface` (plugin.rs 25-30).  The
`create_plugin` function pointer is modelled by the behaviour of the
instance it allocates; the `destroy_plugin` function pointer's only
observable effect is deallocation at the plugin's allocator, recorded in
traces as a `destroyCall` event, so it carries no data here. -/
structure PluginInterface where
  create_plugin : PluginBehavior
  destroy_plugin : Unit
  api_version : Nat

/-- The variants of `libloading::Error` this code produces or names:
dlopen failure, dlsym failure, and the `DlSymUnknown` value the code
constructs itself at plugin.rs line 90. -/
inductive LibloadingError where
  | DlOpen
  | DlSym
  | DlSymUnknown
deriving DecidableEq, Repr

/-- `enum PluginError` (plugin.rs 36-42). -/
inductive PluginError where
  | LibraryLoad (e : LibloadingError)
  | SymbolError (e : LibloadingError)
  | IncompatibleAPI
  | NotFound
deriving DecidableEq, Repr

/-- Rendering of a `libloading::Error` (external crate's `Display`);
only its presence matters, never its exact text. -/
def LibloadingError.message : LibloadingError → String
  | .DlOpen => "DlOpen"
  | .DlSym => "DlSym"
  | .DlSymUnknown => "DlSymUnknown"

/-- `impl fmt::Display for PluginError` (plugin.rs 44-53). -/
def PluginError.message : PluginError → String
  | .LibraryLoad e => "Library load error: " ++ e.message
  | .SymbolError e => "Symbol error: " ++ e.message
  | .IncompatibleAPI => "Incompatible API version"
  | .NotFound => "Plugin not found"

/-- A native library file as the dynamic linker presents it to the host:
the environment `load_plugin`/`unload_plugin` run against.

* `hasGetPluginInterface`: whether the library exports the function
  symbol `get_plugin_interface` (the entry point resolved at plugin.rs
  70-71).
* `descriptor`: the `&'static PluginInterface` that calling the entry
  point returns.
* `pluginInterfaceStatic`: the data symbol `plugin_interface` that
  `unload_plugin` (plugin.rs 104-105) and `Drop` (plugin.rs 132) try to
  resolve — `none` when the library exports no such symbol.
* `descriptorActualSize`: the true in-memory size, in bytes, of the
  descriptor object as the foreign compiler laid it out.  The host cannot
  observe this through a read it has already typed as
  `&'static PluginInterface`; it is carried here so that a genuine
  foreign layout mismatch is expressible in the model. -/
structure LibFile where
  hasGetPluginInterface : Bool
  descriptor : PluginInterface
  pluginInterfaceStatic : Option PluginInterface
  descriptorActualSize : Nat

/-- `std::mem::size_of::<PluginInterface>()` on a 64-bit host: two
8-byte function pointers plus a `u32`, padded to 8-byte alignment. -/
def size_of_PluginInterface : Nat := 24

/-- `std::mem::size_of_val(&*interface)` where
`interface : &'static PluginInterface` (plugin.rs 76): in Rust,
`size_of_val` applied through a reference to a `Sized` type returns that
type's compiled size, whatever object the reference points at. -/
def size_of_val_interface (_ : PluginInterface) : Nat := size_of_PluginInterface

/-- Observable foreign-function-interface events, in program order. -/
inductive FfiEvent where
  /-- `Library::new(path)` attempted. -/
  | libraryOpen (path : String)
  /-- `lib.get(symbolName)` resolved (`found = true`) or failed. -/
  | symbolLookup (sym : String) (found : Bool)
  /-- the descriptor's `create_plugin` function was invoked. -/
  | createCall
  /-- the instance's `init` method was invoked. -/
  | initCall
  /-- the instance's `metadata` method was invoked. -/
  | metadataCall
  /-- the descriptor's `destroy_plugin` function was invoked
  (deallocation at the plugin's own allocator). -/
  | destroyCall
  /-- a `Box<dyn PluginInstance>` was dropped by the host (reclaimed at
  the host allocator, not through the plugin's destroy function). -/
  | hostBoxDrop
  /-- the `Library` handle was dropped (library unmapped). -/
  | libraryClose
deriving DecidableEq, Repr

/-- The registry `plugins: HashMap<String, (Box<dyn PluginInstance>, Library)>`
(plugin.rs 33), modelled as an association list with `HashMap` insert
semantics (a key occurs at most once; `insertEntry` below replaces). -/
abbrev Registry := List (String × PluginBehavior × LibFile)

/-- Remove every binding of `key` (helper for `HashMap::insert` /
`HashMap::remove` semantics). -/
def Registry.eraseKey (m : Registry) (key : String) : Registry :=
  match m with
  | [] => []
  | (k, v) :: rest =>
      if k = key then Registry.eraseKey rest key
      else (k, v) :: Registry.eraseKey rest key

/-- `HashMap::get` / lookup by name. -/
def Registry.find? (m : Registry) (key : String) : Option (PluginBehavior × LibFile) :=
  match m with
  | [] => none
  | (k, v) :: rest => if k = key then some v else Registry.find? rest key

/-- `HashMap::insert`: the new binding replaces any prior binding of the
same key (the prior value is returned to the caller and, in
`load_plugin`, immediately dropped). -/
def Registry.insertEntry (m : Registry) (key : String) (p : PluginBehavior)
    (l : LibFile) : Registry :=
  (key, p, l) :: m.eraseKey key

/-- Number of bindings of `key` in the registry. -/
def Registry.countKey (m : Registry) (key : String) : Nat :=
  match m with
  | [] => 0
  | (k, _) :: rest =>
      (if k = key then 1 else 0) + Registry.countKey rest key

/-- Outcome of `load_plugin`: `Ok(())`, `Err(e)`, or a panic (the
`assert_eq!` at plugin.rs 74-78 aborts instead of returning). -/
inductive LoadResult where
  | ok
  | err (e : PluginError)
  | panicked (msg : String)
deriving DecidableEq, Repr

/-- Result of a `load_plugin` call: its return value, the registry after
the call, and the trace of foreign events it performed. -/
structure LoadOut where
  result : LoadResult
  registry : Registry
  trace : List FfiEvent

/-- `PluginManager::load_plugin` (plugin.rs 62-98).  `fs` maps a path to
the library file the dynamic linker finds there (`none`: `Library::new`
fails).  Control flow mirrors the source line by line:
open the library, resolve `get_plugin_interface`, call it, assert the
descriptor sizes match (panic on failure), check `api_version`, call
`create_plugin`, take ownership of the instance, call `init` (mapping an
init error to `SymbolError(DlSymUnknown)`), read `metadata`, and insert
into the registry, replacing any prior entry under the same name.  On
every early return after the library was opened, the local `Library` (and
any live `Box`) is dropped in reverse declaration order. -/
def load_plugin (fs : String → Option LibFile) (m : Registry) (path : String) :
    LoadOut :=
  match fs path with
  | none =>
      { result := .err (.LibraryLoad .DlOpen), registry := m,
        trace := [.libraryOpen path] }
  | some lib =>
      if lib.hasGetPluginInterface = false then
        { result := .err (.SymbolError .DlSym), registry := m,
          trace := [.libraryOpen path,
                    .symbolLookup "get_plugin_interface" false,
                    .libraryClose] }
      else
        let interface := lib.descriptor
        let t1 : List FfiEvent :=
          [.libraryOpen path, .symbolLookup "get_plugin_interface" true]
        if size_of_PluginInterface ≠ size_of_val_interface interface then
          { result := .panicked "ABI size mismatch", registry := m, trace := t1 }
        else if interface.api_version ≠ CURRENT_API_VERSION then
          { result := .err .IncompatibleAPI, registry := m,
            trace := t1 ++ [.libraryClose] }
        else
          let plugin := interface.create_plugin
          let t2 := t1 ++ [FfiEvent.createCall]
          match plugin.init .null with
          | .error _ =>
              { result := .err (.SymbolError .DlSymUnknown), registry := m,
                trace := t2 ++ [.initCall, .hostBoxDrop, .libraryClose] }
          | .ok () =>
              let md := plugin.metadata
              let replaced : List FfiEvent :=
                if (m.find? md.name).isSome then [.hostBoxDrop, .libraryClose]
                else []
              { result := .ok,
                registry := m.insertEntry md.name plugin lib,
                trace := t2 ++ [.initCall, .metadataCall] ++ replaced }

/-- Result of an `unload_plugin` call. -/
structure UnloadOut where
  result : Except PluginError Unit
  registry : Registry
  trace : List FfiEvent

/-- `PluginManager::unload_plugin` (plugin.rs 100-113): remove the entry
(`NotFound` if absent), then resolve the data symbol `plugin_interface`
in the entry's library (`SymbolError` if absent — the removed entry's
`Box` and `Library` are then dropped by the host), and on success invoke
its `destroy_plugin` on the instance, then drop the library handle. -/
def unload_plugin (m : Registry) (name : String) : UnloadOut :=
  match m.find? name with
  | none => { result := .error .NotFound, registry := m, trace := [] }
  | some (_, lib) =>
      let m1 := m.eraseKey name
      match lib.pluginInterfaceStatic with
      | none =>
          { result := .error (.SymbolError .DlSym), registry := m1,
            trace := [.symbolLookup "plugin_interface" false,
                      .hostBoxDrop, .libraryClose] }
      | some _ =>
          { result := .ok (), registry := m1,
            trace := [.symbolLookup "plugin_interface" true,
                      .destroyCall, .libraryClose] }

/-- `PluginManager::execute_plugin` (plugin.rs 115-120): look the name
up, forward `input` to the instance's `execute`, or fail with the
formatted string `"Plugin {name} not found"`.  The error type of this
method is `String`, not `PluginError`. -/
def execute_plugin (m : Registry) (name input : String) : Except String String :=
  match m.find? name with
  | some (p, _) => .ok (p.execute input)
  | none => .error ("Plugin " ++ name ++ " not found")

/-- `PluginManager::get_metadata` (plugin.rs 122-124). -/
def get_metadata (m : Registry) (name : String) : Option PluginMetadata :=
  (m.find? name).map fun (p, _) => p.metadata

/-- Per-entry teardown performed by `impl Drop for PluginManager`
(plugin.rs 130-137): try to resolve the data symbol `plugin_interface`;
if it resolves, invoke `destroy_plugin` on the instance; otherwise skip
the destroy silently (the `Box` is then dropped by the host).  In both
cases the `Library` handle is dropped at the end of the iteration. -/
def dropEntry : String × PluginBehavior × LibFile → List FfiEvent
  | (_, _, lib) =>
      match lib.pluginInterfaceStatic with
      | some _ => [.symbolLookup "plugin_interface" true, .destroyCall,
                   .libraryClose]
      | none => [.symbolLookup "plugin_interface" false, .hostBoxDrop,
                 .libraryClose]

/-- `impl Drop for PluginManager` (plugin.rs 127-139): take the registry
and tear down every remaining entry in iteration order. -/
def dropManager (m : Registry) : List FfiEvent :=
  (m.map dropEntry).flatten

/-! ### The example plugin (`test_plugin.rs`) -/

/-- `TestPlugin::init` (test_plugin.rs 10-12). -/
def TestPlugin.init (_ : JsonValue) : Except String Unit := .ok ()

/-- `TestPlugin::execute` (test_plugin.rs 14-16). -/
def TestPlugin.execute (input : String) : String := "Processed: " ++ input

/-- `TestPlugin::metadata` (test_plugin.rs 18-24). -/
def TestPlugin.metadata : PluginMetadata :=
  { name := "test_plugin", version := "1.0", description := "Test Plugin" }

/-- The behaviour of an instance allocated by the test plugin's
`create` (test_plugin.rs 27-30). -/
def testPluginBehavior : PluginBehavior :=
  { init := TestPlugin.init, execute := TestPlugin.execute,
    metadata := TestPlugin.metadata }

/-- The descriptor returned by the test plugin's exported
`get_plugin_interface` (test_plugin.rs 38-45): `create`, `destroy`,
`api_version: 1`. -/
def testPluginDescriptor : PluginInterface :=
  { create_plugin := testPluginBehavior, destroy_plugin := (),
    api_version := 1 }

/-- The test plugin's compiled library.  It exports the function symbols
`get_plugin_interface`, `create` and `destroy` (test_plugin.rs 27-45)
and no data symbol named `plugin_interface`, so `pluginInterfaceStatic`
is `none`.  It is built by the same compiler as the host, so its
descriptor's actual size is the host's compiled size. -/
def testPluginLib : LibFile :=
  { hasGetPluginInterface := true, descriptor := testPluginDescriptor,
    pluginInterfaceStatic := none,
    descriptorActualSize := size_of_PluginInterface }

/-- A filesystem containing only the built test plugin. -/
def testFs : String → Option LibFile := fun p =>
  if p = "libtest_plugin.so" then some testPluginLib else none

/-- The registry of a fresh manager after one successful load of the
test plugin. -/
def loadedRegistry : Registry :=
  (load_plugin testFs [] "libtest_plugin.so").registry

/-- A descriptor whose foreign build gave the descriptor object a
different in-memory size than the host's compiled expectation — the
situation §4.1's defensive size check is meant to catch. -/
def mismatchedLib : LibFile :=
  { hasGetPluginInterface := true, descriptor := testPluginDescriptor,
    pluginInterfaceStatic := none, descriptorActualSize := 1000 }

/-- A plugin whose `create` succeeds but whose `init` fails. -/
def failingInitBehavior : PluginBehavior :=
  { init := fun _ => .error "init failed",
    execute := fun s => s,
    metadata := { name := "bad", version := "0.1",
                  description := "plugin whose init fails" } }

/-- A well-formed library (correct entry point, current api version)
holding `failingInitBehavior`. -/
def failingInitLib : LibFile :=
  { hasGetPluginInterface := true,
    descriptor := { create_plugin := failingInitBehavior,
                    destroy_plugin := (), api_version := 1 },
    pluginInterfaceStatic := none,
    descriptorActualSize := size_of_PluginInterface }

/-- A library identical to the test plugin's except that it reports
`api_version = 2`. -/
def v2Lib : LibFile :=
  { hasGetPluginInterface := true,
    descriptor := { create_plugin := testPluginBehavior,
                    destroy_plugin := (), api_version := 2 },
    pluginInterfaceStatic := none,
    descriptorActualSize := size_of_PluginInterface }

/-! ### Helper lemmas on the registry and on `load_plugin` -/

theorem Registry.find?_eraseKey (m : Registry) (key : String) :
    (m.eraseKey key).find? key = none := by
  induction m with
  | nil => rfl
  | cons hd tl ih =>
      obtain ⟨k, v⟩ := hd
      by_cases hk : k = key
      · simpa [Registry.eraseKey, hk] using ih
      · simpa [Registry.eraseKey, Registry.find?, hk] using ih

theorem Registry.countKey_eraseKey (m : Registry) (key : String) :
    (m.eraseKey key).countKey key = 0 := by
  induction m with
  | nil => rfl
  | cons hd tl ih =>
      obtain ⟨k, v⟩ := hd
      by_cases hk : k = key
      · simpa [Registry.eraseKey, hk] using ih
      · simpa [Registry.eraseKey, Registry.countKey, hk] using ih

theorem Registry.countKey_insertEntry (m : Registry) (key : String)
    (p : PluginBehavior) (l : LibFile) :
    (m.insertEntry key p l).countKey key = 1 := by
  simp [Registry.insertEntry, Registry.countKey, Registry.countKey_eraseKey]

theorem Registry.find?_insertEntry (m : Registry) (key : String)
    (p : PluginBehavior) (l : LibFile) :
    (m.insertEntry key p l).find? key = some (p, l) := by
  simp [Registry.insertEntry, Registry.find?]

/-- The `assert_eq!` in `load_plugin` compares the host's compiled size
with `size_of_val` of a reference the host already typed as
`&'static PluginInterface`; the two are definitionally equal, so the
panic branch is unreachable on every input. -/
theorem load_plugin_no_panic (fs : String → Option LibFile) (m : Registry)
    (path : String) (msg : String) :
    (load_plugin fs m path).result ≠ .panicked msg := by
  unfold load_plugin
  cases hfs : fs path with
  | none => simp
  | some lib =>
      by_cases hg : lib.hasGetPluginInterface = false
      · simp [hg]
      · simp only [hg, if_false, size_of_val_interface, ne_eq, not_true_eq_false]
        by_cases hv : lib.descriptor.api_version ≠ CURRENT_API_VERSION
        · simp [hv]
        · cases hinit : lib.descriptor.create_plugin.init .null with
          | error e => simp [hv, hinit]
          | ok u => cases u; simp [hv, hinit]

/-! ### Claim theorems -/

/-- C4: for every prior registry state and every path, if `load_plugin`
does not return `Ok` the registry is exactly as it was before the call;
a nonexistent path fails with `LibraryLoad` and leaves the registry
unchanged; and `load_plugin` succeeds only when every step succeeded:
the library opened, the entry point resolved, the size check passed, the
api version matched, and `init` returned `Ok`. -/
theorem load_plugin_all_or_nothing (fs : String → Option LibFile)
    (m : Registry) (path : String) :
    ((load_plugin fs m path).result ≠ .ok → (load_plugin fs m path).registry = m)
    ∧ (fs path = none →
        (load_plugin fs m path).result = .err (.LibraryLoad .DlOpen)
        ∧ (load_plugin fs m path).registry = m)
    ∧ ((load_plugin fs m path).result = .ok →
        ∃ lib, fs path = some lib
          ∧ lib.hasGetPluginInterface = true
          ∧ size_of_val_interface lib.descriptor = size_of_PluginInterface
          ∧ lib.descriptor.api_version = CURRENT_API_VERSION
          ∧ lib.descriptor.create_plugin.init .null = .ok ()) := by
  unfold load_plugin
  cases hfs : fs path with
  | none => simp
  | some lib =>
      cases hg : lib.hasGetPluginInterface with
      | false => simp [hg]
      | true =>
          by_cases hv : lib.descriptor.api_version = CURRENT_API_VERSION
          · cases hinit : lib.descriptor.create_plugin.init .null with
            | error e => simp [size_of_val_interface, hv, hinit, hg]
            | ok u =>
                cases u
                refine ⟨?_, ?_, ?_⟩ <;>
                  simp [size_of_val_interface, hv, hinit, hg]
          · simp [size_of_val_interface, hv, hg]

/-- C4 witness: loading from a filesystem with no library at the path
fails with `LibraryLoad` and leaves an empty registry empty. -/
theorem load_plugin_all_or_nothing_witness :
    (load_plugin (fun _ => none) [] "non_existent_plugin.so").result
        = .err (.LibraryLoad .DlOpen)
    ∧ (load_plugin (fun _ => none) [] "non_existent_plugin.so").registry = [] :=
  (load_plugin_all_or_nothing (fun _ => none) [] "non_existent_plugin.so").2.1 rfl

/-- C6: a library whose descriptor reports an `api_version` different
from `CURRENT_API_VERSION` fails with `IncompatibleAPI`; its
`create_plugin` is never invoked (nor `init` nor `destroy_plugin`), the
registry is unchanged, and the last event is the library handle being
dropped without further calls into the library. -/
theorem load_plugin_incompatible_api (fs : String → Option LibFile)
    (m : Registry) (path : String) (lib : LibFile)
    (hfs : fs path = some lib)
    (hsym : lib.hasGetPluginInterface = true)
    (hv : lib.descriptor.api_version ≠ CURRENT_API_VERSION) :
    (load_plugin fs m path).result = .err .IncompatibleAPI
    ∧ (load_plugin fs m path).registry = m
    ∧ FfiEvent.createCall ∉ (load_plugin fs m path).trace
    ∧ FfiEvent.initCall ∉ (load_plugin fs m path).trace
    ∧ FfiEvent.destroyCall ∉ (load_plugin fs m path).trace
    ∧ (load_plugin fs m path).trace.getLast? = some FfiEvent.libraryClose := by
  unfold load_plugin
  simp [hfs, hsym, size_of_val_interface, hv, List.getLast?]

/-- C6 witness: loading `v2Lib` (api version 2) fails with
`IncompatibleAPI`, never calls `create`, and drops the handle last. -/
theorem load_plugin_incompatible_api_witness :
    (load_plugin (fun _ => some v2Lib) [] "v2.so").result = .err .IncompatibleAPI
    ∧ (load_plugin (fun _ => some v2Lib) [] "v2.so").registry = []
    ∧ FfiEvent.createCall ∉ (load_plugin (fun _ => some v2Lib) [] "v2.so").trace
    ∧ FfiEvent.initCall ∉ (load_plugin (fun _ => some v2Lib) [] "v2.so").trace
    ∧ FfiEvent.destroyCall ∉ (load_plugin (fun _ => some v2Lib) [] "v2.so").trace
    ∧ (load_plugin (fun _ => some v2Lib) [] "v2.so").trace.getLast?
        = some FfiEvent.libraryClose :=
  load_plugin_incompatible_api (fun _ => some v2Lib) [] "v2.so" v2Lib rfl rfl
    (by decide)

/-- C10: the defensive size check compares
`size_of::<PluginInterface>()` against `size_of_val` of a reference the
host itself already typed as `&'static PluginInterface`, so the two
sides are equal by construction for every descriptor, the assertion can
never fire (no input makes `load_plugin` panic), and an actual layout
mismatch in the foreign library goes undetected: a library whose
descriptor's true size differs from the host's expectation still loads
successfully. -/
theorem size_check_vacuous :
    (∀ d : PluginInterface, size_of_val_interface d = size_of_PluginInterface)
    ∧ (∀ (fs : String → Option LibFile) (m : Registry) (path msg : String),
        (load_plugin fs m path).result ≠ .panicked msg)
    ∧ mismatchedLib.descriptorActualSize ≠ size_of_PluginInterface
    ∧ (load_plugin (fun _ => some mismatchedLib) [] "mismatched.so").result = .ok :=
  ⟨fun _ => rfl, fun fs m path msg => load_plugin_no_panic fs m path msg,
    by decide, rfl⟩

/-- C5 counterexample: `execute_plugin` on a name with no registry entry
fails with the plain string `"Plugin p not found"` — its error channel is
`String`, not the `PluginError::NotFound` kind (whose rendering is
`"Plugin not found"`). -/
theorem execute_plugin_error_is_string :
    execute_plugin [] "p" "x" = .error "Plugin p not found"
    ∧ "Plugin p not found" ≠ PluginError.message .NotFound := by
  exact ⟨rfl, by decide⟩

/-- C5 amended: if no registry entry exists under `name`,
`execute_plugin` fails with the formatted string
`"Plugin {name} not found"` (a `String` error, not the
`PluginError::NotFound` kind); if an entry exists, the input is
forwarded to the instance's `execute` and its output returned verbatim —
in particular, for the loaded reference test plugin,
`execute_plugin "test_plugin" "x"` returns exactly `"Processed: x"`. -/
theorem execute_plugin_behavior (m : Registry) (name input : String) :
    (m.find? name = none →
        execute_plugin m name input
          = .error ("Plugin " ++ name ++ " not found"))
    ∧ (∀ p l, m.find? name = some (p, l) →
        execute_plugin m name input = .ok (p.execute input))
    ∧ execute_plugin loadedRegistry "test_plugin" "x" = .ok "Processed: x" := by
  refine ⟨fun hnone => ?_, fun p l hsome => ?_, rfl⟩
  · unfold execute_plugin
    simp [hnone]
  · unfold execute_plugin
    simp [hsome]

/-- C5 witness: on the empty registry, lookup of `"p"` yields nothing
and `execute_plugin` returns the formatted string error; on the registry
holding the loaded test plugin, output is forwarded verbatim. -/
theorem execute_plugin_behavior_witness :
    execute_plugin [] "p" "x" = .error ("Plugin " ++ "p" ++ " not found")
    ∧ execute_plugin loadedRegistry "test_plugin" "x" = .ok "Processed: x" :=
  ⟨(execute_plugin_behavior [] "p" "x").1 rfl,
    (execute_plugin_behavior [] "p" "x").2.2⟩

/-- C8: when `load_plugin` succeeds for a plugin reporting a name
already present in the registry, the new `(instance, library)` pair
replaces the prior entry, the prior instance's destructor
(`destroy_plugin`) is never invoked during the call, and afterwards the
registry holds exactly one entry under that name. -/
theorem load_plugin_replaces_without_destroy (fs : String → Option LibFile)
    (m : Registry) (path : String) (lib : LibFile)
    (hfs : fs path = some lib)
    (hsym : lib.hasGetPluginInterface = true)
    (hv : lib.descriptor.api_version = CURRENT_API_VERSION)
    (hinit : lib.descriptor.create_plugin.init .null = .ok ())
    (hdup : (m.find? lib.descriptor.create_plugin.metadata.name).isSome = true) :
    (load_plugin fs m path).result = .ok
    ∧ (load_plugin fs m path).registry.countKey
        lib.descriptor.create_plugin.metadata.name = 1
    ∧ (load_plugin fs m path).registry.find?
        lib.descriptor.create_plugin.metadata.name
        = some (lib.descriptor.create_plugin, lib)
    ∧ FfiEvent.destroyCall ∉ (load_plugin fs m path).trace := by
  unfold load_plugin
  simp [hfs, hsym, size_of_val_interface, hv, hinit, hdup,
    Registry.countKey_insertEntry, Registry.find?_insertEntry]

/-- C8 witness: reloading the test plugin into a registry that already
holds an entry named `"test_plugin"` succeeds, replaces it, leaves
exactly one entry under that name, and never calls `destroy_plugin`. -/
theorem load_plugin_replaces_without_destroy_witness :
    (load_plugin testFs loadedRegistry "libtest_plugin.so").result = .ok
    ∧ (load_plugin testFs loadedRegistry "libtest_plugin.so").registry.countKey
        testPluginLib.descriptor.create_plugin.metadata.name = 1
    ∧ (load_plugin testFs loadedRegistry "libtest_plugin.so").registry.find?
        testPluginLib.descriptor.create_plugin.metadata.name
        = some (testPluginLib.descriptor.create_plugin, testPluginLib)
    ∧ FfiEvent.destroyCall
        ∉ (load_plugin testFs loadedRegistry "libtest_plugin.so").trace :=
  load_plugin_replaces_without_destroy testFs loadedRegistry
    "libtest_plugin.so" testPluginLib rfl rfl rfl rfl rfl

/-- C9: `unload_plugin` removes the registry entry before resolving the
destructor symbol, so when that resolution fails (`SymbolError`) the
entry stays removed: the registry equals the old one with the name
erased, `get_metadata` then returns `none`, and a repeated
`unload_plugin` returns `NotFound`. -/
theorem unload_plugin_removes_before_resolving (m : Registry) (name : String)
    (p : PluginBehavior) (lib : LibFile)
    (hfind : m.find? name = some (p, lib))
    (hnosym : lib.pluginInterfaceStatic = none) :
    (unload_plugin m name).result = .error (.SymbolError .DlSym)
    ∧ (unload_plugin m name).registry = m.eraseKey name
    ∧ get_metadata (unload_plugin m name).registry name = none
    ∧ (unload_plugin (unload_plugin m name).registry name).result
        = .error .NotFound := by
  unfold unload_plugin get_metadata
  simp [hfind, hnosym, Registry.find?_eraseKey]

/-- C9 witness: unloading the loaded test plugin (whose library exports
no data symbol `plugin_interface`) returns `SymbolError`, yet the entry
is gone: metadata queries return `none` and a second unload returns
`NotFound`. -/
theorem unload_plugin_removes_before_resolving_witness :
    (unload_plugin loadedRegistry "test_plugin").result
        = .error (.SymbolError .DlSym)
    ∧ (unload_plugin loadedRegistry "test_plugin").registry
        = loadedRegistry.eraseKey "test_plugin"
    ∧ get_metadata (unload_plugin loadedRegistry "test_plugin").registry
        "test_plugin" = none
    ∧ (unload_plugin (unload_plugin loadedRegistry "test_plugin").registry
        "test_plugin").result = .error .NotFound :=
  unload_plugin_removes_before_resolving loadedRegistry "test_plugin"
    testPluginBehavior testPluginLib rfl rfl

/-- C1 (code evaluated at the failing input): the test plugin loads
successfully and remains registered, yet tearing the manager down
(`impl Drop for PluginManager`) never invokes `destroy_plugin` on it:
the `Drop` impl looks up the data symbol `plugin_interface`, which the
test plugin does not export (it exports `get_plugin_interface`), so the
lookup fails, the destroy is silently skipped, and the instance is
reclaimed by a host-side `Box` drop instead. -/
theorem dropManager_skips_destroy :
    (load_plugin testFs [] "libtest_plugin.so").result = .ok
    ∧ loadedRegistry.length = 1
    ∧ FfiEvent.destroyCall ∉ dropManager loadedRegistry
    ∧ FfiEvent.symbolLookup "plugin_interface" false ∈ dropManager loadedRegistry
    ∧ FfiEvent.hostBoxDrop ∈ dropManager loadedRegistry :=
  ⟨rfl, rfl, by decide, by decide, by decide⟩

/-- C2 (code evaluated at the failing input): `load_plugin` validated
the test plugin's descriptor through the entry-point symbol
`get_plugin_interface`, but `unload_plugin` re-resolves the destructor
through the fresh, differently-named symbol `plugin_interface` instead
of the already-obtained descriptor; on the repository's own test plugin
that symbol does not exist, so unload fails with `SymbolError` and the
destructor is never invoked — though the repository's own
`test_unload_plugin` asserts this unload succeeds. -/
theorem unload_plugin_resolves_fresh_symbol :
    FfiEvent.symbolLookup "get_plugin_interface" true
        ∈ (load_plugin testFs [] "libtest_plugin.so").trace
    ∧ (unload_plugin loadedRegistry "test_plugin").result
        = .error (.SymbolError .DlSym)
    ∧ FfiEvent.symbolLookup "plugin_interface" false
        ∈ (unload_plugin loadedRegistry "test_plugin").trace
    ∧ FfiEvent.destroyCall ∉ (unload_plugin loadedRegistry "test_plugin").trace :=
  ⟨by decide, rfl, by decide, by decide⟩

/-- C3 (code evaluated at the failing input): loading a library whose
`init` fails after the instance was created propagates a structured
error (oddly mapped to `SymbolError(DlSymUnknown)`), but the instance is
not destroyed through the plugin's `destroy_plugin`: it is reclaimed by
a host-side `Box` drop, so a foreign-allocated object is freed by the
host allocator instead of the plugin's own destructor. -/
theorem load_plugin_init_failure_leaks :
    (load_plugin (fun _ => some failingInitLib) [] "failing_init.so").result
        = .err (.SymbolError .DlSymUnknown)
    ∧ FfiEvent.createCall
        ∈ (load_plugin (fun _ => some failingInitLib) [] "failing_init.so").trace
    ∧ FfiEvent.destroyCall
        ∉ (load_plugin (fun _ => some failingInitLib) [] "failing_init.so").trace
    ∧ FfiEvent.hostBoxDrop
        ∈ (load_plugin (fun _ => some failingInitLib) [] "failing_init.so").trace
    ∧ (load_plugin (fun _ => some failingInitLib) [] "failing_init.so").registry
        = [] :=
  ⟨rfl, by decide, by decide, by decide, rfl⟩

/-- C7 counterexample: a library whose descriptor object's actual
foreign in-memory size (1000) differs from the host's compiled
expectation (24) does not make `load_plugin` return an error value: the
load succeeds, because the check reads the size through a reference the
host already typed as `&'static PluginInterface`. -/
theorem load_plugin_size_mismatch_not_an_error :
    mismatchedLib.descriptorActualSize ≠ size_of_PluginInterface
    ∧ (load_plugin (fun _ => some mismatchedLib) [] "mismatched.so").result
        = .ok
    ∧ (load_plugin (fun _ => some mismatchedLib) [] "mismatched.so").registry.countKey
        "test_plugin" = 1 :=
  ⟨by decide, rfl, rfl⟩

/-- C7 amended: the size check in `load_plugin` compares the host's
compiled descriptor size with `size_of_val` of a reference the host
itself typed, so it passes for every descriptor; a genuine foreign
layout mismatch is therefore never detected (load proceeds without
returning an error for it), and while the check's failure branch is an
`assert_eq!` that would panic rather than return an error value, that
branch is unreachable — `load_plugin` never panics on any input. -/
theorem load_plugin_size_check_never_fails :
    (∀ d : PluginInterface, size_of_PluginInterface = size_of_val_interface d)
    ∧ (∀ (fs : String → Option LibFile) (m : Registry) (path msg : String),
        (load_plugin fs m path).result ≠ .panicked msg)
    ∧ (load_plugin (fun _ => some mismatchedLib) [] "mismatched.so").result
        = .ok :=
  ⟨fun _ => rfl, fun fs m path msg => load_plugin_no_panic fs m path msg, rfl⟩

end Lance
